import Mathlib

/-!
Shallow embedding of `CustomPrior` from
`A_NICER_VIEW_OF_PSR_J0740+6620/STU/CustomPrior_GLS_compressed_scaling.py`.

The class defines a joint prior over the ST-U neutron-star parameter
vector.  We embed its four methods — `__call__` (support evaluator),
`density`, `inverse_sample` and `transform` — over the real numbers.
External collaborators (the base `xpsi.Prior` class, the spacetime
object, the surface-gravity routine, the spherical-separation routine,
`scipy.stats` pdf/ppf functions and `gravradius`) are abstract function
fields of a `Collab` record.  Python floats that can carry `inf`/`nan`
are modelled by `PyFloat`; Python exceptions (`KeyError`,
`ZeroDivisionError`, `ValueError`) by the `Except String` monad.
-/

open scoped Classical

namespace NSPrior

/-- A Python float: either a finite real or one of the IEEE specials. -/
inductive PyFloat where
  | finite (x : ℝ)
  | inf
  | ninf
  | nan

/-- `np.isfinite` on a `PyFloat`. -/
def PyFloat.isFinite : PyFloat → Bool
  | .finite _ => true
  | _ => false

/-- The spacetime collaborator's exposed quantities
(`ref.epsilon`, `ref.zeta`, `ref.R`, `ref.R_r_s`). -/
structure Spacetime where
  epsilon : ℝ
  zeta : ℝ
  R : ℝ
  R_r_s : ℝ

/-- Current values of the named parameters of the ST-U model.  The two
instrument effective-area scale factors are stored unconditionally; their
presence in the parameter set is recorded by `ParamMeta`. -/
structure Params where
  mass : ℝ
  radius : ℝ
  distance : ℝ
  cos_inclination : ℝ
  p__phase_shift : ℝ
  p__super_colatitude : ℝ
  p__super_radius : ℝ
  p__super_temperature : ℝ
  s__phase_shift : ℝ
  s__super_colatitude : ℝ
  s__super_radius : ℝ
  s__super_temperature : ℝ
  XTI__alpha : ℝ
  column_density : ℝ
  PN__alpha : ℝ

/-- Static data owned by the parameter container: which optional
instrument scale factors exist, the strict bounds of `cos_inclination`,
the bounds of the two colatitude parameters, and the name→index map of
the vector layout. -/
structure ParamMeta where
  hasXTI : Bool
  hasPN : Bool
  cos_inclination_strict_bounds : ℝ × ℝ
  p__super_colatitude_bounds : ℝ × ℝ
  s__super_colatitude_bounds : ℝ × ℝ
  index : String → ℕ

/-- The external collaborators consumed by `CustomPrior`. -/
structure Collab where
  /-- `super(CustomPrior, self).__call__(p)`: the base-class bounds check. -/
  baseCall : Params → PyFloat
  /-- `self.parameters.star.spacetime`, derived from the current values. -/
  spacetime : Params → Spacetime
  /-- `xpsi.surface_radiation_field.effective_gravity`, pointwise:
  arguments are (cos colatitude, `R`, `zeta`, `epsilon`). -/
  effective_gravity : ℝ → ℝ → ℝ → ℝ → ℝ
  /-- `xpsi.HotRegion.psi (colat2, azimuth, colat1)`: angular separation. -/
  psi : ℝ → ℝ → ℝ → ℝ
  /-- `scipy.stats.skewnorm.pdf x skewness loc scale`. -/
  skewnorm_pdf : ℝ → ℝ → ℝ → ℝ → ℝ
  /-- `scipy.stats.truncnorm.pdf x a b loc scale`. -/
  truncnorm_pdf : ℝ → ℝ → ℝ → ℝ → ℝ → ℝ
  /-- `scipy.stats.skewnorm.ppf u skewness loc scale`. -/
  skewnorm_ppf : ℝ → ℝ → ℝ → ℝ → ℝ
  /-- `scipy.stats.truncnorm.ppf u a b loc scale`. -/
  truncnorm_ppf : ℝ → ℝ → ℝ → ℝ → ℝ → ℝ
  /-- `xpsi.global_imports.gravradius`. -/
  gravradius : ℝ → ℝ
  /-- `super(CustomPrior, self).inverse_sample(hypercube)`: the base
  uniform-in-bounds transform, overwriting all parameter values. -/
  base_inverse_sample : Params → (ℕ → ℝ) → Params

/-- `_2pi` from `xpsi.global_imports`. -/
noncomputable def _2pi : ℝ := 2 * Real.pi

/-- Module constant `_corr = 0.800`. -/
def _corr : ℝ := 0.800

/-- Module constant `_mu_m = 2.082`. -/
def _mu_m : ℝ := 2.082

/-- Module constant `_std_m = 0.0703`. -/
def _std_m : ℝ := 0.0703

/-- Module constant `_mu_cosi = 0.0427`. -/
def _mu_cosi : ℝ := 0.0427

/-- Module constant `_std_cosi = 0.00304`. -/
def _std_cosi : ℝ := 0.00304

/-- Module constant `_cond_std = sqrt((1 - _corr*_corr) * _std_cosi * _std_cosi)`. -/
noncomputable def _cond_std : ℝ :=
  Real.sqrt ((1.0 - _corr * _corr) * _std_cosi * _std_cosi)

/-- Module constant `_cond_std_alpha = sqrt((1 - 0.916*0.916) * 0.104 * 0.104)`. -/
noncomputable def _cond_std_alpha : ℝ :=
  Real.sqrt ((1.0 - 0.916 * 0.916) * 0.104 * 0.104)

/-- `CustomPrior.__call__`: evaluate the log-prior (support) at the
current parameter values.  Returns `Except.error` exactly where the
Python would raise (`ZeroDivisionError` on a zero divisor,
`ValueError` from `math.sqrt` of a negative radicand). -/
noncomputable def call (C : Collab) (p : Params) : Except String PyFloat :=
  let temp := C.baseCall p
  if temp.isFinite = false then Except.ok temp
  else
  if ¬ (0.0 < p.distance ∧ p.distance ≤ 1.7) then Except.ok PyFloat.ninf
  else
  if ¬ (p.radius ≤ 16.0) then Except.ok PyFloat.ninf
  else
  let ref := C.spacetime p
  let R_p := 1.0 + ref.epsilon * (-0.788 + 1.030 * ref.zeta)
  if ref.R_r_s = 0 then Except.error "ZeroDivisionError"
  else
  if R_p < 1.505 / ref.R_r_s then Except.ok PyFloat.ninf
  else
  if 3.0 * ref.epsilon * (-0.788 + 1.030 * ref.zeta) = 0 then
    Except.error "ZeroDivisionError"
  else
  if -1.0 / (3.0 * ref.epsilon * (-0.788 + 1.030 * ref.zeta)) < 0 then
    Except.error "ValueError"
  else
  let mu := Real.sqrt (-1.0 / (3.0 * ref.epsilon * (-0.788 + 1.030 * ref.zeta)))
  if mu < 1.0 then Except.ok PyFloat.ninf
  else
  let grav0 := C.effective_gravity 1.0 ref.R ref.zeta ref.epsilon
  let grav1 := C.effective_gravity 0.0 ref.R ref.zeta ref.epsilon
  if ¬ (13.7 ≤ grav0 ∧ grav0 ≤ 15.0) then Except.ok PyFloat.ninf
  else
  if ¬ (13.7 ≤ grav1 ∧ grav1 ≤ 15.0) then Except.ok PyFloat.ninf
  else
  if p.p__super_colatitude > p.s__super_colatitude then Except.ok PyFloat.ninf
  else
  let phi := (p.p__phase_shift - 0.5 - p.s__phase_shift) * _2pi
  let ang_sep := C.psi p.s__super_colatitude phi p.p__super_colatitude
  if ang_sep < p.p__super_radius + p.s__super_radius then Except.ok PyFloat.ninf
  else Except.ok (PyFloat.finite 0.0)

/-- `CustomPrior.density`: evaluate the prior density at the current
parameter values.  `ref['PN__alpha']` inside `try/except KeyError` is
modelled by branching on `m.hasPN`; the subsequent unguarded read of
`ref['XTI__alpha']` raises `KeyError` when that parameter is absent. -/
noncomputable def density (m : ParamMeta) (C : Collab) (p : Params) :
    Except String ℝ :=
  match call C p with
  | Except.error e => Except.error e
  | Except.ok c =>
  if c.isFinite = false then
    Except.ok 0.0
  else
  let d0 : ℝ := 1.0
  let d1 := d0 * C.skewnorm_pdf p.distance 1.7 1.002 0.227
  let d2 := d1 * C.truncnorm_pdf p.mass (-5.0) 5.0 _mu_m _std_m
  let _strict := m.cos_inclination_strict_bounds
  let _loc := _mu_cosi + (_std_cosi / _std_m) * _corr * (p.mass - _mu_m)
  let _lower := min (-10.0) ((_strict.1 - _loc) / _cond_std)
  let d3 := d2 * C.truncnorm_pdf p.cos_inclination _lower 10.0 _loc _cond_std
  if m.hasPN = false then
    Except.ok d3
  else
  if m.hasXTI = false then
    Except.error "KeyError"
  else
  let _rho : ℝ := 0.916
  let _std : ℝ := 0.104
  let _a := (p.XTI__alpha - 1.0) / _std
  let _b := (p.PN__alpha - 1.0) / _std
  let _exponent := (_a * _a + _b * _b - 2.0 * _rho * _a * _b) /
    (2.0 * (1.0 - _rho * _rho))
  let d4 := d3 * Real.exp (-1.0 * _exponent)
  let d5 := d4 / (2.0 * Real.pi * _std * _std * Real.sqrt (1.0 - _rho * _rho))
  Except.ok d5

/-- `self.parameters.vector`: the ordered value vector, with each optional
instrument scale factor included exactly when present. -/
def Params.vector (m : ParamMeta) (p : Params) : List ℝ :=
  [p.mass, p.radius, p.distance, p.cos_inclination,
   p.p__phase_shift, p.p__super_colatitude, p.p__super_radius,
   p.p__super_temperature,
   p.s__phase_shift, p.s__super_colatitude, p.s__super_radius,
   p.s__super_temperature]
  ++ (if m.hasXTI then [p.XTI__alpha] else [])
  ++ [p.column_density]
  ++ (if m.hasPN then [p.PN__alpha] else [])

/-- The parameter container: current values plus each parameter's
`cached` attribute. -/
structure PStore where
  values : Params
  cached : Params

/-- `CustomPrior.inverse_sample`: inverse-CDF sampling.  `hypercube` is
the optional uniform vector; `rand` models the `np.random.rand(len(self))`
draw used when it is omitted.  Returns the final container state (with
the restored caches) together with the returned vector. -/
noncomputable def inverse_sample (m : ParamMeta) (C : Collab) (st : PStore)
    (hypercube : Option (ℕ → ℝ)) (rand : ℕ → ℝ) : PStore × List ℝ :=
  let to_cache := st.values
  let h := match hypercube with
    | none => rand
    | some u => u
  let p0 := C.base_inverse_sample st.values h
  let p1 := { p0 with
    distance := C.skewnorm_ppf (h (m.index "distance")) 1.7 1.002 0.227 }
  let p2 := { p1 with
    mass := C.truncnorm_ppf (h (m.index "mass")) (-5.0) 5.0 _mu_m _std_m }
  let _strict := m.cos_inclination_strict_bounds
  let _loc := _mu_cosi + (_std_cosi / _std_m) * _corr * (p2.mass - _mu_m)
  let _lower := min (-10.0) ((_strict.1 - _loc) / _cond_std)
  let p3 := { p2 with
    cos_inclination := C.truncnorm_ppf (h (m.index "cos_inclination"))
      _lower 10.0 _loc _cond_std }
  let ab := m.p__super_colatitude_bounds
  let a := Real.cos ab.1
  let b := Real.cos ab.2
  let p4 := { p3 with
    p__super_colatitude :=
      Real.arccos (b + (a - b) * h (m.index "p__super_colatitude")) }
  let ab' := m.s__super_colatitude_bounds
  let a' := Real.cos ab'.1
  let b' := Real.cos ab'.2
  let p5 := { p4 with
    s__super_colatitude :=
      Real.arccos (b' + (a' - b') * h (m.index "s__super_colatitude")) }
  let p6 := if m.hasXTI then
      { p5 with XTI__alpha :=
          C.truncnorm_ppf (h (m.index "XTI__alpha")) (-5.0) 5.0 1.0 0.104 }
    else p5
  let p7 := if m.hasPN then
      let ls : ℝ × ℝ := if m.hasXTI
        then (1.0 + 0.916 * (p6.XTI__alpha - 1.0), _cond_std_alpha)
        else (1.0, 0.104)
      { p6 with PN__alpha :=
          C.truncnorm_ppf (h (m.index "PN__alpha")) (-5.0) 5.0 ls.1 ls.2 }
    else p6
  (⟨p7, to_cache⟩, Params.vector m p7)

/-- `CustomPrior.transform`: append compactness and the two folded phase
shifts to a raw vector `p`; `ref` is the name-indexed view of `p`. -/
noncomputable def transform (m : ParamMeta) (C : Collab) (p : List ℝ) :
    List ℝ :=
  let ref := fun n => p.getD (m.index n) 0
  let p1 := p ++ [C.gravradius (ref "mass") / ref "radius"]
  let p2 := if ref "p__phase_shift" > 0.5
    then p1 ++ [ref "p__phase_shift" - 1.0]
    else p1 ++ [ref "p__phase_shift"]
  let p3 := if ref "s__phase_shift" > 0.5
    then p2 ++ [ref "s__phase_shift" - 1.0]
    else p2 ++ [ref "s__phase_shift"]
  p3

/-- Constraint 1 of the support: distance in (0, 1.7]. -/
def chkDistance (p : Params) : Prop := 0.0 < p.distance ∧ p.distance ≤ 1.7

/-- Constraint 2 of the support: radius at most 16 km. -/
def chkRadius (p : Params) : Prop := p.radius ≤ 16.0

/-- Constraint 3 of the support: the normalized polar radius
`R_p = 1 + epsilon*(-0.788 + 1.030*zeta)` is at least `1.505 / R_r_s`. -/
def chkRp (st : Spacetime) : Prop :=
  1.505 / st.R_r_s ≤ 1.0 + st.epsilon * (-0.788 + 1.030 * st.zeta)

/-- Constraint 4 of the support:
`mu = sqrt(-1/(3*epsilon*(-0.788+1.030*zeta)))` is at least 1. -/
noncomputable def chkMu (st : Spacetime) : Prop :=
  1.0 ≤ Real.sqrt (-1.0 / (3.0 * st.epsilon * (-0.788 + 1.030 * st.zeta)))

/-- Constraint 5 of the support: the log10 effective surface gravity at
the pole (cos colatitude 1) and at the equator (cos colatitude 0) both
lie in [13.7, 15.0]. -/
def chkGrav (C : Collab) (st : Spacetime) : Prop :=
  (13.7 ≤ C.effective_gravity 1.0 st.R st.zeta st.epsilon ∧
    C.effective_gravity 1.0 st.R st.zeta st.epsilon ≤ 15.0) ∧
  (13.7 ≤ C.effective_gravity 0.0 st.R st.zeta st.epsilon ∧
    C.effective_gravity 0.0 st.R st.zeta st.epsilon ≤ 15.0)

/-- Constraint 6 of the support: the primary hot-region colatitude does
not exceed the secondary one. -/
def chkColat (p : Params) : Prop :=
  p.p__super_colatitude ≤ p.s__super_colatitude

/-- Constraint 7 of the support: the angular separation of the two
hot-region centres is at least the sum of their angular radii. -/
noncomputable def chkOverlap (C : Collab) (p : Params) : Prop :=
  p.p__super_radius + p.s__super_radius ≤
    C.psi p.s__super_colatitude
      ((p.p__phase_shift - 0.5 - p.s__phase_shift) * _2pi)
      p.p__super_colatitude

/-- All seven physical-support constraints together. -/
noncomputable def admissible (C : Collab) (p : Params) : Prop :=
  chkDistance p ∧ chkRadius p ∧ chkRp (C.spacetime p) ∧
  chkMu (C.spacetime p) ∧ chkGrav C (C.spacetime p) ∧
  chkColat p ∧ chkOverlap C p

/-- Under the well-definedness side conditions on the spacetime
collaborator, `__call__` reduces to a single test of `admissible`. -/
theorem call_eq_support (C : Collab) (p : Params)
    (hfin : (C.baseCall p).isFinite = true)
    (hR : (C.spacetime p).R_r_s ≠ 0)
    (hec : 3.0 * (C.spacetime p).epsilon *
      (-0.788 + 1.030 * (C.spacetime p).zeta) < 0) :
    call C p = if admissible C p then Except.ok (PyFloat.finite 0.0)
      else Except.ok PyFloat.ninf := by
  have hrad : ¬ (-1.0 / (3.0 * (C.spacetime p).epsilon *
      (-0.788 + 1.030 * (C.spacetime p).zeta)) < 0) := by
    have h0 : (0:ℝ) < -1.0 / (3.0 * (C.spacetime p).epsilon *
        (-0.788 + 1.030 * (C.spacetime p).zeta)) :=
      div_pos_iff.mpr (Or.inr ⟨by norm_num, hec⟩)
    linarith
  simp only [call]
  rw [if_neg (by simp [hfin])]
  by_cases c1 : 0.0 < p.distance ∧ p.distance ≤ 1.7
  · rw [if_neg (not_not_intro c1)]
    by_cases c2 : p.radius ≤ 16.0
    · rw [if_neg (not_not_intro c2), if_neg hR]
      by_cases c3 : 1.505 / (C.spacetime p).R_r_s ≤
          1.0 + (C.spacetime p).epsilon * (-0.788 + 1.030 * (C.spacetime p).zeta)
      · rw [if_neg (not_lt.mpr c3), if_neg (ne_of_lt hec), if_neg hrad]
        by_cases c4 : 1.0 ≤ Real.sqrt (-1.0 / (3.0 * (C.spacetime p).epsilon *
            (-0.788 + 1.030 * (C.spacetime p).zeta)))
        · rw [if_neg (not_lt.mpr c4)]
          by_cases c5a : 13.7 ≤ C.effective_gravity 1.0 (C.spacetime p).R
              (C.spacetime p).zeta (C.spacetime p).epsilon ∧
              C.effective_gravity 1.0 (C.spacetime p).R
                (C.spacetime p).zeta (C.spacetime p).epsilon ≤ 15.0
          · rw [if_neg (not_not_intro c5a)]
            by_cases c5b : 13.7 ≤ C.effective_gravity 0.0 (C.spacetime p).R
                (C.spacetime p).zeta (C.spacetime p).epsilon ∧
                C.effective_gravity 0.0 (C.spacetime p).R
                  (C.spacetime p).zeta (C.spacetime p).epsilon ≤ 15.0
            · rw [if_neg (not_not_intro c5b)]
              by_cases c6 : p.p__super_colatitude ≤ p.s__super_colatitude
              · rw [if_neg (not_lt.mpr c6)]
                by_cases c7 : p.p__super_radius + p.s__super_radius ≤
                    C.psi p.s__super_colatitude
                      ((p.p__phase_shift - 0.5 - p.s__phase_shift) * _2pi)
                      p.p__super_colatitude
                · rw [if_neg (not_lt.mpr c7),
                    if_pos (show admissible C p from
                      ⟨c1, c2, c3, c4, ⟨c5a, c5b⟩, c6, c7⟩)]
                · rw [if_pos (not_le.mp c7),
                    if_neg (fun h => c7 h.2.2.2.2.2.2)]
              · rw [if_pos (not_le.mp c6),
                  if_neg (fun h => c6 h.2.2.2.2.2.1)]
            · rw [if_pos c5b, if_neg (fun h => c5b h.2.2.2.2.1.2)]
          · rw [if_pos c5a, if_neg (fun h => c5a h.2.2.2.2.1.1)]
        · rw [if_pos (not_le.mp c4), if_neg (fun h => c4 h.2.2.2.1)]
      · rw [if_pos (not_le.mp c3), if_neg (fun h => c3 h.2.2.1)]
    · rw [if_pos c2, if_neg (fun h => c2 h.2.1)]
  · rw [if_pos c1, if_neg (fun h => c1 h.1)]

/-- C1: when the base-class check is finite (and the spacetime
collaborator yields a nonzero `R_r_s` and a negative oblateness factor,
so that the `mu` computation is well defined), `__call__` returns
exactly 0.0 iff all seven physical constraints hold — distance in
(0, 1.7], radius ≤ 16, polar radius outside the photon sphere, mu ≥ 1,
both surface gravities in [13.7, 15.0], ordered colatitudes,
non-overlapping hot regions — and returns negative infinity whenever
any of them is violated. -/
theorem call_support_characterisation (C : Collab) (p : Params)
    (hfin : (C.baseCall p).isFinite = true)
    (hR : (C.spacetime p).R_r_s ≠ 0)
    (hec : 3.0 * (C.spacetime p).epsilon *
      (-0.788 + 1.030 * (C.spacetime p).zeta) < 0) :
    (call C p = Except.ok (PyFloat.finite 0.0) ↔ admissible C p) ∧
    (¬ admissible C p → call C p = Except.ok PyFloat.ninf) := by
  have h := call_eq_support C p hfin hR hec
  constructor
  · rw [h]
    by_cases ha : admissible C p
    · simp [ha]
    · simp [ha]
  · intro ha
    rw [h, if_neg ha]

/-- A concrete collaborator instantiation used by the witnesses. -/
noncomputable def wCollab : Collab where
  baseCall := fun _ => PyFloat.finite 0.0
  spacetime := fun _ => ⟨0.3, 0.0, 12.0, 2.0⟩
  effective_gravity := fun _ _ _ _ => 14.0
  psi := fun _ _ _ => 2.0
  skewnorm_pdf := fun _ _ _ _ => 0.5
  truncnorm_pdf := fun _ _ _ _ _ => 0.5
  skewnorm_ppf := fun u _ _ _ => u
  truncnorm_ppf := fun u _ _ l s => l + s * u
  gravradius := fun x => x
  base_inverse_sample := fun p _ => p

/-- A concrete admissible parameter assignment used by the witnesses. -/
noncomputable def wParams : Params where
  mass := 2.0
  radius := 12.0
  distance := 1.0
  cos_inclination := 0.0
  p__phase_shift := 0.0
  p__super_colatitude := 0.5
  p__super_radius := 0.1
  p__super_temperature := 6.0
  s__phase_shift := 0.0
  s__super_colatitude := 1.0
  s__super_radius := 0.1
  s__super_temperature := 6.0
  XTI__alpha := 1.0
  column_density := 1.0
  PN__alpha := 1.0

/-- The witness parameter assignment is admissible. -/
theorem wParams_admissible : admissible wCollab wParams := by
  unfold admissible chkDistance chkRadius chkRp chkMu chkGrav chkColat
    chkOverlap wCollab wParams
  norm_num
  have h1 : Real.sqrt 1773 ≤ Real.sqrt 2500 := Real.sqrt_le_sqrt (by norm_num)
  have h2 : (0:ℝ) < Real.sqrt 1773 := Real.sqrt_pos.mpr (by norm_num)
  rw [le_div_iff₀ h2]
  linarith

/-- Witness for C1: at a concrete admissible input with concrete
collaborators, `__call__` evaluates to exactly 0.0. -/
theorem call_support_characterisation_witness :
    call wCollab wParams = Except.ok (PyFloat.finite 0.0) :=
  (call_support_characterisation wCollab wParams (by rfl)
    (by norm_num [wCollab]) (by norm_num [wCollab])).1.mpr wParams_admissible

/-- The documented vector layout of the ST-U model, as a name→index map. -/
def windex : String → ℕ := fun n =>
  if n = "mass" then 0
  else if n = "radius" then 1
  else if n = "distance" then 2
  else if n = "cos_inclination" then 3
  else if n = "p__phase_shift" then 4
  else if n = "p__super_colatitude" then 5
  else if n = "p__super_radius" then 6
  else if n = "p__super_temperature" then 7
  else if n = "s__phase_shift" then 8
  else if n = "s__super_colatitude" then 9
  else if n = "s__super_radius" then 10
  else if n = "s__super_temperature" then 11
  else if n = "XTI__alpha" then 12
  else if n = "column_density" then 13
  else 14

/-- Container metadata with both instrument scale factors present. -/
noncomputable def wMeta : ParamMeta :=
  ⟨true, true, (-1.0, 1.0), (0.0, 3.0), (0.0, 3.0), windex⟩

/-- Container metadata with `PN__alpha` present but `XTI__alpha` absent. -/
noncomputable def wMetaNoXTI : ParamMeta :=
  ⟨false, true, (-1.0, 1.0), (0.0, 3.0), (0.0, 3.0), windex⟩

/-- A physically inadmissible parameter assignment: the distance 2.0
violates the Shklovskii truncation (0, 1.7]. -/
noncomputable def wParamsBad : Params := { wParams with distance := 2.0 }

/-- The bad witness assignment is indeed inadmissible. -/
theorem wParamsBad_not_admissible : ¬ admissible wCollab wParamsBad := by
  intro h
  have h2 := h.1.2
  norm_num [wParamsBad, wParams] at h2

/-- At the concrete inadmissible input, `__call__` evaluates to the
negative-infinity sentinel. -/
theorem wcall_bad : call wCollab wParamsBad = Except.ok PyFloat.ninf := by
  rw [call_eq_support wCollab wParamsBad (by rfl) (by norm_num [wCollab])
    (by norm_num [wCollab]), if_neg wParamsBad_not_admissible]

/-- At the concrete admissible input, `__call__` evaluates to 0.0. -/
theorem wcall_good : call wCollab wParams = Except.ok (PyFloat.finite 0.0) := by
  rw [call_eq_support wCollab wParams (by rfl) (by norm_num [wCollab])
    (by norm_num [wCollab]), if_pos wParams_admissible]

/-- C4: for a physically inadmissible parameter vector (base check
finite, spacetime collaborator well defined), neither `__call__` nor
`density` raises an exception: `__call__` returns the sentinel negative
infinity and `density` returns the sentinel 0.0. -/
theorem no_exception_on_inadmissible (m : ParamMeta) (C : Collab) (p : Params)
    (hfin : (C.baseCall p).isFinite = true)
    (hR : (C.spacetime p).R_r_s ≠ 0)
    (hec : 3.0 * (C.spacetime p).epsilon *
      (-0.788 + 1.030 * (C.spacetime p).zeta) < 0)
    (hnot : ¬ admissible C p) :
    call C p = Except.ok PyFloat.ninf ∧ density m C p = Except.ok 0.0 := by
  have hcall : call C p = Except.ok PyFloat.ninf := by
    rw [call_eq_support C p hfin hR hec, if_neg hnot]
  refine ⟨hcall, ?_⟩
  simp [density, hcall, PyFloat.isFinite]

/-- Witness for C4: at a concrete inadmissible input (distance 2.0), in
the parameter configuration with `PN__alpha` present and `XTI__alpha`
absent, both entry points return their sentinels and no error value. -/
theorem no_exception_on_inadmissible_witness :
    call wCollab wParamsBad = Except.ok PyFloat.ninf ∧
    density wMetaNoXTI wCollab wParamsBad = Except.ok 0.0 :=
  no_exception_on_inadmissible wMetaNoXTI wCollab wParamsBad (by rfl)
    (by norm_num [wCollab]) (by norm_num [wCollab]) wParamsBad_not_admissible

/-- C2: whenever the scipy pdf collaborators are nonnegative (they are
probability densities), every value `density` returns is nonnegative;
and `density` returns exactly 0.0 whenever `__call__` returns a
non-finite value. -/
theorem density_nonneg_and_zero_off_support
    (m : ParamMeta) (C : Collab) (p : Params)
    (hsk : ∀ x a l s, 0 ≤ C.skewnorm_pdf x a l s)
    (htr : ∀ x a b l s, 0 ≤ C.truncnorm_pdf x a b l s) :
    (∀ v, density m C p = Except.ok v → 0 ≤ v) ∧
    (∀ t, call C p = Except.ok t → t.isFinite = false →
      density m C p = Except.ok 0.0) := by
  constructor
  · intro v hv
    cases hc : call C p with
    | error e => rw [density, hc] at hv; cases hv
    | ok t =>
      simp only [density, hc] at hv
      by_cases ht : t.isFinite = false
      · rw [if_pos ht] at hv
        cases hv
        norm_num
      · rw [if_neg ht] at hv
        have hd3 : (0:ℝ) ≤ 1.0 * C.skewnorm_pdf p.distance 1.7 1.002 0.227 *
            C.truncnorm_pdf p.mass (-5.0) 5.0 _mu_m _std_m *
            C.truncnorm_pdf p.cos_inclination
              (min (-10.0) ((m.cos_inclination_strict_bounds.1 -
                (_mu_cosi + (_std_cosi / _std_m) * _corr * (p.mass - _mu_m))) /
                _cond_std))
              10.0 (_mu_cosi + (_std_cosi / _std_m) * _corr * (p.mass - _mu_m))
              _cond_std :=
          mul_nonneg (mul_nonneg
            (by have := hsk p.distance 1.7 1.002 0.227; linarith)
            (htr _ _ _ _ _)) (htr _ _ _ _ _)
        by_cases hPN : m.hasPN = false
        · rw [if_pos hPN] at hv
          cases hv
          exact hd3
        · rw [if_neg hPN] at hv
          by_cases hXTI : m.hasXTI = false
          · rw [if_pos hXTI] at hv; cases hv
          · rw [if_neg hXTI] at hv
            cases hv
            refine div_nonneg (mul_nonneg hd3 (le_of_lt (Real.exp_pos _))) ?_
            positivity
  · intro t hc ht
    simp [density, hc, ht]

/-- Witness for C2: with concrete nonnegative pdf collaborators, at a
concrete input taken off-support by its distance, `density` evaluates
to exactly 0.0. -/
theorem density_nonneg_and_zero_off_support_witness :
    density wMeta wCollab wParamsBad = Except.ok 0.0 :=
  (density_nonneg_and_zero_off_support wMeta wCollab wParamsBad
    (by intro x a l s; norm_num [wCollab])
    (by intro x a b l s; norm_num [wCollab])).2
    PyFloat.ninf wcall_bad (by rfl)

/-- The conditional scale of the source, `sqrt((1-_corr^2) * _std_cosi^2)`,
equals the spec's form `sqrt(1-_corr^2) * _std_cosi`. -/
theorem cond_std_eq : _cond_std = Real.sqrt (1 - _corr ^ 2) * _std_cosi := by
  unfold _cond_std _corr _std_cosi
  rw [show (1.0 - (0.800:ℝ) * 0.800) * 0.00304 * 0.00304 =
    (1 - (0.800:ℝ) ^ 2) * (0.00304 * 0.00304) by ring,
    Real.sqrt_mul (by norm_num), Real.sqrt_mul_self (by norm_num)]

/-- The density the spec describes, built from the spec's own wording:
the skew-normal distance factor, the truncated-normal mass factor, the
conditional truncated-normal cos-inclination factor (conditional scale
`sqrt(1-_corr^2)*_std_cosi`, lower truncation bound
`min(-10, (strict_lower - cond_loc)/cond_scale)`, upper bound 10), and —
exactly when the second instrument scale factor is present — the
explicit bivariate-normal joint density of the two instrument scale
factors with correlation 0.916, marginal std 0.104, both centred at 1. -/
noncomputable def densitySpec (m : ParamMeta) (C : Collab) (p : Params) : ℝ :=
  C.skewnorm_pdf p.distance 1.7 1.002 0.227 *
  C.truncnorm_pdf p.mass (-5.0) 5.0 _mu_m _std_m *
  C.truncnorm_pdf p.cos_inclination
    (min (-10.0)
      ((m.cos_inclination_strict_bounds.1 -
        (_mu_cosi + (_std_cosi / _std_m) * _corr * (p.mass - _mu_m))) /
        (Real.sqrt (1 - _corr ^ 2) * _std_cosi)))
    10.0
    (_mu_cosi + (_std_cosi / _std_m) * _corr * (p.mass - _mu_m))
    (Real.sqrt (1 - _corr ^ 2) * _std_cosi) *
  (if m.hasPN then
    Real.exp (-((((p.XTI__alpha - 1.0) / 0.104) ^ 2 -
        2 * 0.916 * ((p.XTI__alpha - 1.0) / 0.104) * ((p.PN__alpha - 1.0) / 0.104) +
        ((p.PN__alpha - 1.0) / 0.104) ^ 2) /
      (2 * (1 - (0.916:ℝ) ^ 2)))) /
      (2 * Real.pi * (0.104:ℝ) ^ 2 * Real.sqrt (1 - (0.916:ℝ) ^ 2))
  else 1)

/-- C3: on the support (the support evaluator returned a finite value),
and in any parameter configuration in which the second instrument scale
factor only occurs together with the first, `density` returns exactly
the product of factors described by the spec. -/
theorem density_eq_spec_on_support (m : ParamMeta) (C : Collab) (p : Params)
    (t : PyFloat) (hc : call C p = Except.ok t) (ht : t.isFinite = true)
    (hx : m.hasPN = true → m.hasXTI = true) :
    density m C p = Except.ok (densitySpec m C p) := by
  have hfin : (t.isFinite = false) = False := by simp [ht]
  simp only [density, densitySpec, hc, hfin, if_false, cond_std_eq]
  by_cases hPN : m.hasPN = false
  · rw [if_pos hPN]
    rw [show (if m.hasPN then _ else (1:ℝ)) = 1 from by simp [hPN]]
    congr 1
    ring
  · have hPN' : m.hasPN = true := by revert hPN; cases m.hasPN <;> simp
    have hXTI' : m.hasXTI = true := hx hPN'
    rw [if_neg hPN, if_neg (by simp [hXTI'] : ¬ m.hasXTI = false),
      if_pos hPN']
    congr 1
    rw [show -1.0 * (((p.XTI__alpha - 1.0) / 0.104 * ((p.XTI__alpha - 1.0) / 0.104) +
        (p.PN__alpha - 1.0) / 0.104 * ((p.PN__alpha - 1.0) / 0.104) -
        2.0 * 0.916 * ((p.XTI__alpha - 1.0) / 0.104) * ((p.PN__alpha - 1.0) / 0.104)) /
        (2.0 * (1.0 - 0.916 * 0.916))) =
      -((((p.XTI__alpha - 1.0) / 0.104) ^ 2 -
        2 * 0.916 * ((p.XTI__alpha - 1.0) / 0.104) * ((p.PN__alpha - 1.0) / 0.104) +
        ((p.PN__alpha - 1.0) / 0.104) ^ 2) /
      (2 * (1 - (0.916:ℝ) ^ 2))) from by ring]
    rw [show (1.0 - (0.916:ℝ) * 0.916) = 1 - (0.916:ℝ) ^ 2 from by ring]
    rw [show (2.0 * Real.pi * 0.104 * 0.104 : ℝ) =
      2 * Real.pi * (0.104:ℝ) ^ 2 from by ring]
    ring

/-- Witness for C3: at the concrete admissible input with both scale
factors present, `density` evaluates to the spec's product. -/
theorem density_eq_spec_on_support_witness :
    density wMeta wCollab wParams =
      Except.ok (densitySpec wMeta wCollab wParams) :=
  density_eq_spec_on_support wMeta wCollab wParams (PyFloat.finite 0.0)
    wcall_good (by rfl) (fun _ => by rfl)

/-- C10: in the parameter configuration with `PN__alpha` present but
`XTI__alpha` absent, `density` raises `KeyError` on every in-support
vector (its bivariate branch reads `XTI__alpha` unconditionally),
whereas `inverse_sample` handles the same configuration without
raising, falling back to the unconditioned location 1.0 and scale
0.104 for `PN__alpha`. -/
theorem density_keyerror_vs_inverse_sample_fallback
    (m : ParamMeta) (C : Collab) (p : Params) (st : PStore)
    (u rand : ℕ → ℝ) (t : PyFloat)
    (hPN : m.hasPN = true) (hXTI : m.hasXTI = false)
    (hc : call C p = Except.ok t) (ht : t.isFinite = true) :
    density m C p = Except.error "KeyError" ∧
    (inverse_sample m C st (some u) rand).1.values.PN__alpha =
      C.truncnorm_ppf (u (m.index "PN__alpha")) (-5.0) 5.0 1.0 0.104 := by
  constructor
  · simp [density, hc, ht, hPN, hXTI]
  · simp [inverse_sample, hPN, hXTI]

/-- The witness container state. -/
noncomputable def wStore : PStore := ⟨wParams, wParams⟩

/-- The witness hypercube vector: every coordinate 0.5. -/
noncomputable def wU : ℕ → ℝ := fun _ => 0.5

/-- Witness for C10: at the concrete in-support input, with `PN__alpha`
present and `XTI__alpha` absent, `density` yields the `KeyError` value
while `inverse_sample` yields the unconditioned fallback. -/
theorem density_keyerror_vs_inverse_sample_fallback_witness :
    density wMetaNoXTI wCollab wParams = Except.error "KeyError" ∧
    (inverse_sample wMetaNoXTI wCollab wStore (some wU) wU).1.values.PN__alpha =
      wCollab.truncnorm_ppf (wU (wMetaNoXTI.index "PN__alpha"))
        (-5.0) 5.0 1.0 0.104 :=
  density_keyerror_vs_inverse_sample_fallback wMetaNoXTI wCollab wParams
    wStore wU wU (PyFloat.finite 0.0) (by rfl) (by rfl) wcall_good (by rfl)

/-- C5: with an explicitly supplied hypercube vector, `inverse_sample`
is deterministic: the random stream is never consulted, so two calls
from the same initial parameter state return the same output vector
(and the same final state). -/
theorem inverse_sample_deterministic (m : ParamMeta) (C : Collab)
    (st : PStore) (u : ℕ → ℝ) (r1 r2 : ℕ → ℝ) :
    (inverse_sample m C st (some u) r1).2 =
      (inverse_sample m C st (some u) r2).2 ∧
    inverse_sample m C st (some u) r1 = inverse_sample m C st (some u) r2 :=
  ⟨rfl, rfl⟩

/-- C6: `inverse_sample` sets each hot-region centre colatitude to
`acos(cos b + (cos a - cos b) * u[idx])`, where `(a, b)` are that
parameter's bounds and `idx` its index, independently for the primary
and the secondary colatitude. -/
theorem inverse_sample_colatitudes (m : ParamMeta) (C : Collab)
    (st : PStore) (u rand : ℕ → ℝ) :
    (inverse_sample m C st (some u) rand).1.values.p__super_colatitude =
      Real.arccos (Real.cos m.p__super_colatitude_bounds.2 +
        (Real.cos m.p__super_colatitude_bounds.1 -
         Real.cos m.p__super_colatitude_bounds.2) *
        u (m.index "p__super_colatitude")) ∧
    (inverse_sample m C st (some u) rand).1.values.s__super_colatitude =
      Real.arccos (Real.cos m.s__super_colatitude_bounds.2 +
        (Real.cos m.s__super_colatitude_bounds.1 -
         Real.cos m.s__super_colatitude_bounds.2) *
        u (m.index "s__super_colatitude")) := by
  cases hx : m.hasXTI <;> cases hp : m.hasPN <;>
    simp [inverse_sample, hx, hp]

/-- The source's `_cond_std_alpha` equals the spec's
`sqrt(1-0.916^2)*0.104`. -/
theorem cond_std_alpha_eq :
    _cond_std_alpha = Real.sqrt (1 - (0.916:ℝ) ^ 2) * 0.104 := by
  unfold _cond_std_alpha
  rw [show (1.0 - (0.916:ℝ) * 0.916) * 0.104 * 0.104 =
    (1 - (0.916:ℝ) ^ 2) * (0.104 * 0.104) by ring,
    Real.sqrt_mul (by norm_num), Real.sqrt_mul_self (by norm_num)]

/-- C7: when `PN__alpha` is present, `inverse_sample` overwrites it with
the truncated-normal inverse CDF (±5 sigma) at its own hypercube
coordinate, with location `1 + 0.916*(XTI__alpha - 1)` (using the just
overwritten `XTI__alpha`) and scale `sqrt(1-0.916^2)*0.104` when
`XTI__alpha` exists, and location 1.0 with scale 0.104 otherwise. -/
theorem inverse_sample_PN_alpha (m : ParamMeta) (C : Collab)
    (st : PStore) (u rand : ℕ → ℝ) (hPN : m.hasPN = true) :
    (inverse_sample m C st (some u) rand).1.values.PN__alpha =
      if m.hasXTI then
        C.truncnorm_ppf (u (m.index "PN__alpha")) (-5.0) 5.0
          (1.0 + 0.916 *
            ((inverse_sample m C st (some u) rand).1.values.XTI__alpha - 1.0))
          (Real.sqrt (1 - (0.916:ℝ) ^ 2) * 0.104)
      else
        C.truncnorm_ppf (u (m.index "PN__alpha")) (-5.0) 5.0 1.0 0.104 := by
  cases hx : m.hasXTI <;>
    simp [inverse_sample, hPN, hx, cond_std_alpha_eq]

/-- Witness for C7: at the concrete input with both scale factors
present, the sampled `PN__alpha` is the conditioned truncated-normal
inverse CDF value. -/
theorem inverse_sample_PN_alpha_witness :
    (inverse_sample wMeta wCollab wStore (some wU) wU).1.values.PN__alpha =
      if wMeta.hasXTI then
        wCollab.truncnorm_ppf (wU (wMeta.index "PN__alpha")) (-5.0) 5.0
          (1.0 + 0.916 *
            ((inverse_sample wMeta wCollab wStore (some wU) wU).1.values.XTI__alpha
              - 1.0))
          (Real.sqrt (1 - (0.916:ℝ) ^ 2) * 0.104)
      else
        wCollab.truncnorm_ppf (wU (wMeta.index "PN__alpha")) (-5.0) 5.0 1.0 0.104 :=
  inverse_sample_PN_alpha wMeta wCollab wStore wU wU (by rfl)

/-- C8: after `inverse_sample` returns, every parameter's cached value
equals the value it held at entry (restored from the initial snapshot),
while the returned vector is the vector of the newly sampled values —
e.g. its distance entry carries the skew-normal inverse CDF of the
hypercube coordinate, not the pre-call value. -/
theorem inverse_sample_cache_restore (m : ParamMeta) (C : Collab)
    (st : PStore) (hypercube : Option (ℕ → ℝ)) (rand : ℕ → ℝ) :
    (inverse_sample m C st hypercube rand).1.cached = st.values ∧
    (inverse_sample m C st hypercube rand).2 =
      Params.vector m (inverse_sample m C st hypercube rand).1.values ∧
    (inverse_sample m C st hypercube rand).1.values.distance =
      C.skewnorm_ppf ((hypercube.getD rand) (m.index "distance"))
        1.7 1.002 0.227 := by
  cases hypercube <;> cases hx : m.hasXTI <;> cases hp : m.hasPN <;>
    simp [inverse_sample, Option.getD, hx, hp]

/-- A raw vector (layout of `windex`) whose primary phase shift is
exactly 0.5 and secondary phase shift 0.3. -/
noncomputable def wHalfList : List ℝ :=
  [2.0, 12.0, 1.0, 0.0, 0.5, 0.5, 0.1, 6.0, 0.3, 1.0, 0.1, 6.0, 1.0, 1.0, 1.0]

/-- C9 counterexample: the primary phase-shift value 0.5 lies in [0, 1),
yet the value `transform` appends for it (the second appended entry) is
0.5 itself, which does not lie in [-0.5, 0.5). -/
theorem transform_phase_fold_counterexample :
    (0:ℝ) ≤ wHalfList.getD (wMeta.index "p__phase_shift") 0 ∧
    wHalfList.getD (wMeta.index "p__phase_shift") 0 < 1 ∧
    transform wMeta wCollab wHalfList =
      wHalfList ++ [wCollab.gravradius 2.0 / 12.0, 0.5, 0.3] ∧
    ¬ ((0.5:ℝ) < 0.5) := by
  have e1 : wHalfList.getD (wMeta.index "p__phase_shift") 0 = 0.5 := rfl
  have e2 : wHalfList.getD (wMeta.index "s__phase_shift") 0 = 0.3 := rfl
  have em : wHalfList.getD (wMeta.index "mass") 0 = 2.0 := rfl
  have er : wHalfList.getD (wMeta.index "radius") 0 = 12.0 := rfl
  refine ⟨by rw [e1]; norm_num, by rw [e1]; norm_num, ?_, by norm_num⟩
  simp only [transform, e1, e2, em, er]
  rw [if_neg (by norm_num), if_neg (by norm_num)]
  simp

/-- C9 (amended): `transform` appends, for each of the two phase
shifts, the value minus 1.0 when the value exceeds 0.5 and the value
unchanged otherwise; for every raw phase-shift value in [0, 1) the
appended value lies in (-0.5, 0.5]. -/
theorem transform_phase_fold (m : ParamMeta) (C : Collab) (p : List ℝ)
    (hp : 0 ≤ p.getD (m.index "p__phase_shift") 0 ∧
      p.getD (m.index "p__phase_shift") 0 < 1)
    (hs : 0 ≤ p.getD (m.index "s__phase_shift") 0 ∧
      p.getD (m.index "s__phase_shift") 0 < 1) :
    transform m C p =
      p ++ [C.gravradius (p.getD (m.index "mass") 0) /
          p.getD (m.index "radius") 0,
        if p.getD (m.index "p__phase_shift") 0 > 0.5 then
          p.getD (m.index "p__phase_shift") 0 - 1.0
        else p.getD (m.index "p__phase_shift") 0,
        if p.getD (m.index "s__phase_shift") 0 > 0.5 then
          p.getD (m.index "s__phase_shift") 0 - 1.0
        else p.getD (m.index "s__phase_shift") 0] ∧
    (-0.5 < (if p.getD (m.index "p__phase_shift") 0 > 0.5 then
          p.getD (m.index "p__phase_shift") 0 - 1.0
        else p.getD (m.index "p__phase_shift") 0) ∧
      (if p.getD (m.index "p__phase_shift") 0 > 0.5 then
          p.getD (m.index "p__phase_shift") 0 - 1.0
        else p.getD (m.index "p__phase_shift") 0) ≤ 0.5) ∧
    (-0.5 < (if p.getD (m.index "s__phase_shift") 0 > 0.5 then
          p.getD (m.index "s__phase_shift") 0 - 1.0
        else p.getD (m.index "s__phase_shift") 0) ∧
      (if p.getD (m.index "s__phase_shift") 0 > 0.5 then
          p.getD (m.index "s__phase_shift") 0 - 1.0
        else p.getD (m.index "s__phase_shift") 0) ≤ 0.5) := by
  have fold_mem : ∀ x : ℝ, 0 ≤ x → x < 1 →
      -0.5 < (if x > 0.5 then x - 1.0 else x) ∧
      (if x > 0.5 then x - 1.0 else x) ≤ 0.5 := by
    intro x h0 h1
    by_cases c : x > 0.5
    · rw [if_pos c]; constructor <;> linarith
    · rw [if_neg c]; constructor <;> linarith
  have e : transform m C p =
      p ++ [C.gravradius (p.getD (m.index "mass") 0) /
          p.getD (m.index "radius") 0,
        if p.getD (m.index "p__phase_shift") 0 > 0.5 then
          p.getD (m.index "p__phase_shift") 0 - 1.0
        else p.getD (m.index "p__phase_shift") 0,
        if p.getD (m.index "s__phase_shift") 0 > 0.5 then
          p.getD (m.index "s__phase_shift") 0 - 1.0
        else p.getD (m.index "s__phase_shift") 0] := by
    simp only [transform]
    split_ifs <;> simp
  exact ⟨e, fold_mem _ hp.1 hp.2, fold_mem _ hs.1 hs.2⟩

/-- A raw vector (layout of `windex`) with phase shifts 0.7 and 0.3. -/
noncomputable def wPhaseList : List ℝ :=
  [2.0, 12.0, 1.0, 0.0, 0.7, 0.5, 0.1, 6.0, 0.3, 1.0, 0.1, 6.0, 1.0, 1.0, 1.0]

/-- Witness for C9: at a concrete raw vector with phase shifts 0.7 and
0.3, the appended folded values are -0.3 and 0.3. -/
theorem transform_phase_fold_witness :
    transform wMeta wCollab wPhaseList =
      wPhaseList ++ [wCollab.gravradius 2.0 / 12.0, -0.3, 0.3] := by
  have e1 : wPhaseList.getD (wMeta.index "p__phase_shift") 0 = 0.7 := rfl
  have e2 : wPhaseList.getD (wMeta.index "s__phase_shift") 0 = 0.3 := rfl
  have em : wPhaseList.getD (wMeta.index "mass") 0 = 2.0 := rfl
  have er : wPhaseList.getD (wMeta.index "radius") 0 = 12.0 := rfl
  have h := (transform_phase_fold wMeta wCollab wPhaseList
    (by rw [e1]; norm_num) (by rw [e2]; norm_num)).1
  rw [h, e1, e2, em, er, if_pos (by norm_num), if_neg (by norm_num)]
  norm_num

end NSPrior
